import Mathlib

/-!
Shallow embedding of the Bank of Atlantic account-management API
(`src/unnamed/part_000`, `src/unnamed/part_002`, `src/server.js`), covering
the credential and token lifecycle: the register, verify, login,
forgot-password and reset-password route handlers over the `users`
document collection.

Conventions of the embedding:

* The Mongo `users` collection is a `List UserRecord`; `findOne`,
  `insertOne`, `updateOne` and `deleteOne` mirror the driver calls made by
  the handlers (`updateOne` and `deleteOne` affect the first matching
  document, as the driver does).
* `bcrypt.hash(p, 12)` is modelled by the constructor `Cred.hashed p`; a
  plaintext-stored password (as written by `src/server.js`) is
  `Cred.plain p`; `bcrypt.compare(p, c)` succeeds exactly when
  `c = Cred.hashed p`.
* `Date.now()` is the `Nat` parameter `now`; the value of `generateToken()`
  is the parameter `tok`; the outcome of the outbound email dispatch
  (`sendEmail`) is the parameter `sendOk`.
* A handler returns `Resp β × Store`: the HTTP response sent and the store
  after the call.  `Resp.raised` is a handler whose async function rejected
  before sending a response (an `await sendEmail(...)` outside any
  try/catch, as in the `part_002` register and the `part_000`/`part_002`
  forgot-password handlers).
* An absent or falsy request-body string field is modelled as `""`.
-/

namespace BankAtlantic

/-- A stored credential: either the plaintext password (as stored by
`src/server.js`) or the bcrypt hash `bcrypt.hash(p, 12)` of plaintext `p`. -/
inductive Cred where
  | plain (p : String)
  | hashed (p : String)
  deriving DecidableEq, Repr

/-- `bcrypt.compare(password, stored)`. -/
def bcryptCompare (password : String) (stored : Cred) : Bool :=
  stored == Cred.hashed password

/-- One document of the `users` collection.  An `Option` field is `none`
when absent from the document (Mongo `$unset` removes it).  `resetExpiry`
is the reset-expiry field name used by `part_000`/`part_002`;
`server.js` uses the field name `resetTokenExpiry` instead (the store is
schemaless, so the record type carries both). -/
structure UserRecord where
  id : Nat
  firstName : String
  lastName : String
  email : String
  password : Cred
  accountType : String
  accountActivated : Bool
  verificationToken : Option String := none
  verificationExpiry : Option Nat := none
  resetToken : Option String := none
  resetExpiry : Option Nat := none
  resetTokenExpiry : Option Nat := none
  createdAt : Nat := 0
  deriving DecidableEq, Repr

/-- The `users` collection. -/
abbrev Store := List UserRecord

/-- `db.collection('users').findOne(filter)`. -/
def findOne (s : Store) (p : UserRecord → Bool) : Option UserRecord :=
  s.find? p

/-- `db.collection('users').insertOne(record)`: appends the new document. -/
def insertOne (s : Store) (r : UserRecord) : Store := s ++ [r]

/-- `db.collection('users').updateOne(filter, update)`: rewrites the first
matching document, if any. -/
def updateOne (s : Store) (p : UserRecord → Bool) (f : UserRecord → UserRecord) : Store :=
  match s with
  | [] => []
  | r :: rest => if p r then f r :: rest else r :: updateOne rest p f

/-- `db.collection('users').deleteOne(filter)`: removes the first matching
document, if any. -/
def deleteOne (s : Store) (p : UserRecord → Bool) : Store :=
  match s with
  | [] => []
  | r :: rest => if p r then rest else r :: deleteOne rest p

/-- The `{ email }` equality filter used by register, login, forgot-password
and the verify/reset `updateOne` calls. -/
def byEmail (email : String) (r : UserRecord) : Bool := r.email == email

/-- JavaScript `x < now` where `x` may be `undefined`: comparing `undefined`
with a number is false. -/
def jsLtNow : Option Nat → Nat → Bool
  | some e, now => decide (e < now)
  | none, _ => false

/-- Mongo `{ $gt: now }`: matches only documents where the field is present
and strictly greater than `now`. -/
def mongoGt : Option Nat → Nat → Bool
  | some e, now => decide (now < e)
  | none, _ => false

/-- A stored expiry that is not in the future: the field is absent or at
most `now`. -/
def expiryAtMost (o : Option Nat) (now : Nat) : Bool :=
  match o with
  | some e => decide (e ≤ now)
  | none => true

/-- The HTTP response a handler produced: an error status with its `error`
body string, a success status with its body, or `raised` when the async
handler rejected without sending any response. -/
inductive Resp (β : Type) where
  | err (status : Nat) (error : String)
  | ok (status : Nat) (body : β)
  | raised
  deriving DecidableEq, Repr

/-- True exactly on `Resp.err` responses. -/
def isErr {β : Type} : Resp β → Bool
  | .err _ _ => true
  | _ => false

/-- The sanitized user object in the `part_000` register response. -/
structure RegUser where
  firstName : String
  lastName : String
  email : String
  accountType : String
  accountActivated : Bool
  deriving DecidableEq, Repr

/-- Success body of the `part_000` register response. -/
structure RegisterBodyP0 where
  message : String
  user : RegUser
  deriving DecidableEq, Repr

/-- The document inserted by both register handlers: activated flag false,
pending verification token and a 24-hour expiry. -/
def freshUser (s : Store) (firstName lastName email password accountType : String)
    (tok : String) (now : Nat) : UserRecord :=
  { id := s.length, firstName := firstName, lastName := lastName, email := email,
    password := Cred.hashed password, accountType := accountType,
    accountActivated := false,
    verificationToken := some tok,
    verificationExpiry := some (now + 24 * 60 * 60 * 1000),
    createdAt := now }

/-- `POST /api/auth/register` of `src/unnamed/part_000` (lines 147-222).
On email-dispatch failure the catch block deletes the freshly inserted
record (`deleteOne({ email })`) and reports a 500 error. -/
def register_p0 (s : Store) (firstName lastName email password accountType : String)
    (tok : String) (now : Nat) (sendOk : Bool) : Resp RegisterBodyP0 × Store :=
  if email = "" ∨ password = "" then
    (.err 400 "Missing fields", s)
  else
    match findOne s (byEmail email) with
    | some _ => (.err 400 "Email already registered", s)
    | none =>
      let s1 := insertOne s (freshUser s firstName lastName email password accountType tok now)
      if sendOk then
        (.ok 200 { message := "Verification email sent",
                   user := { firstName := firstName, lastName := lastName, email := email,
                             accountType := accountType, accountActivated := false } }, s1)
      else
        (.err 500 "Failed to send verification email. Please try again.",
         deleteOne s1 (byEmail email))

/-- `POST /api/auth/register` of `src/unnamed/part_002` (lines 113-152).
`sendEmail` is awaited with no try/catch, so on dispatch failure the
handler rejects (`Resp.raised`) and the inserted record stays in the
store. -/
def register_p2 (s : Store) (firstName lastName email password accountType : String)
    (tok : String) (now : Nat) (sendOk : Bool) : Resp String × Store :=
  if email = "" ∨ password = "" then
    (.err 400 "Missing fields", s)
  else
    match findOne s (byEmail email) with
    | some _ => (.err 400 "Email already registered", s)
    | none =>
      let s1 := insertOne s (freshUser s firstName lastName email password accountType tok now)
      if sendOk then (.ok 200 "Verification email sent", s1)
      else (.raised, s1)

/-- The update document of both verify handlers:
`$set { accountActivated: true }` together with
`$unset { verificationToken, verificationExpiry }`. -/
def activateUpdate (r : UserRecord) : UserRecord :=
  { r with accountActivated := true, verificationToken := none, verificationExpiry := none }

/-- `POST /api/auth/verify` of `src/unnamed/part_000` (lines 227-287):
find by `{ verificationToken: token }`, then reject when
`verificationExpiry < now`, then reject when already activated, then
`updateOne({ email: user.email }, ...)`. -/
def verify_p0 (s : Store) (token : String) (now : Nat) : Resp String × Store :=
  if token = "" then
    (.err 400 "No token provided", s)
  else
    match findOne s (fun r => r.verificationToken == some token) with
    | none => (.err 400 "Invalid verification link", s)
    | some user =>
      if jsLtNow user.verificationExpiry now then
        (.err 400 "Verification link has expired", s)
      else if user.accountActivated then
        (.err 400 "Account already verified", s)
      else
        (.ok 200 "Account verified successfully",
         updateOne s (byEmail user.email) activateUpdate)

/-- The combined find filter of the `part_002` verify handler:
`{ verificationToken: token, verificationExpiry: { $gt: Date.now() } }`. -/
def verifyFilter_p2 (token : String) (now : Nat) (r : UserRecord) : Bool :=
  r.verificationToken == some token && mongoGt r.verificationExpiry now

/-- `POST /api/auth/verify` of `src/unnamed/part_002` (lines 157-179). -/
def verify_p2 (s : Store) (token : String) (now : Nat) : Resp Unit × Store :=
  match findOne s (verifyFilter_p2 token now) with
  | none => (.err 400 "Invalid or expired token", s)
  | some user => (.ok 200 (), updateOne s (byEmail user.email) activateUpdate)

/-- The signed session-token payload of the `part_000` login
(`jwt.sign({ id, email, firstName, lastName }, secret, { expiresIn: '24h' })`). -/
structure JwtP0 where
  id : Nat
  email : String
  firstName : String
  lastName : String
  expiresIn : String
  deriving DecidableEq, Repr

/-- The user projection in the `part_000` login success response. -/
structure LoginUserP0 where
  id : Nat
  firstName : String
  lastName : String
  email : String
  accountType : String
  accountActivated : Bool
  createdAt : Nat
  deriving DecidableEq, Repr

/-- Success body of the `part_000` login response. -/
structure LoginBodyP0 where
  token : JwtP0
  user : LoginUserP0
  message : String
  deriving DecidableEq, Repr

/-- `POST /api/auth/login` of `src/unnamed/part_000` (lines 292-368). -/
def login_p0 (s : Store) (email password : String) : Resp LoginBodyP0 × Store :=
  match findOne s (byEmail email) with
  | none => (.err 401 "Invalid email or password", s)
  | some user =>
    if !user.accountActivated then
      (.err 403 "Account not verified. Please check your email for verification link.", s)
    else if !bcryptCompare password user.password then
      (.err 401 "Invalid email or password", s)
    else
      (.ok 200 { token := { id := user.id, email := user.email, firstName := user.firstName,
                            lastName := user.lastName, expiresIn := "24h" },
                 user := { id := user.id, firstName := user.firstName,
                           lastName := user.lastName, email := user.email,
                           accountType := user.accountType,
                           accountActivated := user.accountActivated,
                           createdAt := user.createdAt },
                 message := "Login successful" }, s)

/-- The signed session-token payload of the `part_002` login
(`jwt.sign({ id, email }, secret, { expiresIn: '1d' })`). -/
structure JwtP2 where
  id : Nat
  email : String
  expiresIn : String
  deriving DecidableEq, Repr

/-- `POST /api/auth/login` of `src/unnamed/part_002` (lines 184-205). -/
def login_p2 (s : Store) (email password : String) : Resp JwtP2 × Store :=
  match findOne s (byEmail email) with
  | none => (.err 401 "Invalid credentials", s)
  | some user =>
    if !user.accountActivated then
      (.err 403 "Account not verified", s)
    else if !bcryptCompare password user.password then
      (.err 401 "Invalid credentials", s)
    else
      (.ok 200 { id := user.id, email := user.email, expiresIn := "1d" }, s)

/-- The user projection in the `server.js` login success response. -/
structure SjsUser where
  id : Nat
  firstName : String
  lastName : String
  email : String
  accountType : String
  accountActivated : Bool
  deriving DecidableEq, Repr

/-- Success body of the `server.js` login response. -/
structure LoginBodySjs where
  message : String
  user : SjsUser
  token : String
  deriving DecidableEq, Repr

/-- `POST /api/auth/login` of `src/server.js` (lines 342-393): plaintext
password equality (`user.password !== password`), no activation check.
`accountType || 'domiciliary'` treats the empty string as absent. -/
def login_sjs (s : Store) (email password : String) : Resp LoginBodySjs × Store :=
  match findOne s (byEmail email) with
  | none => (.err 401 "Invalid email or password", s)
  | some user =>
    if !(user.password == Cred.plain password) then
      (.err 401 "Invalid email or password", s)
    else
      (.ok 200 { message := "Login successful!",
                 user := { id := user.id, firstName := user.firstName,
                           lastName := user.lastName, email := user.email,
                           accountType := if user.accountType == "" then "domiciliary"
                                          else user.accountType,
                           accountActivated := user.accountActivated },
                 token := "jwt-token-placeholder" }, s)

/-- The update document of the `part_000`/`part_002` forgot-password handler:
`$set { resetToken, resetExpiry: Date.now() + 3600000 }`. -/
def setReset (tok : String) (now : Nat) (r : UserRecord) : UserRecord :=
  { r with resetToken := some tok, resetExpiry := some (now + 3600000) }

/-- `POST /api/auth/forgot-password` of `src/unnamed/part_000`
(lines 373-401), identical in `part_002` (lines 210-238).  `sendEmail` is
awaited with no try/catch, so a dispatch failure rejects the handler
before the success response is sent. -/
def forgotPassword_p0 (s : Store) (email tok : String) (now : Nat) (sendOk : Bool) :
    Resp Unit × Store :=
  match findOne s (byEmail email) with
  | none => (.ok 200 (), s)
  | some _ =>
    let s1 := updateOne s (byEmail email) (setReset tok now)
    if sendOk then (.ok 200 (), s1) else (.raised, s1)

/-- `POST /api/auth/forgot-password` of `src/server.js` (lines 185-288):
`sendEmail` catches its own errors and returns a success flag which the
handler only logs; the same success body is returned in every case. -/
def forgotPassword_sjs (s : Store) (email tok : String) (now : Nat) (sendOk : Bool) :
    Resp String × Store :=
  match findOne s (byEmail email) with
  | none =>
    (.ok 200 "If an account exists with this email, password reset instructions have been sent.",
     s)
  | some _ =>
    let s1 := updateOne s (byEmail email)
      (fun r => { r with resetToken := some tok, resetTokenExpiry := some (now + 3600000) })
    (.ok 200 "If an account exists with this email, password reset instructions have been sent.",
     s1)

/-- The find filter of the `part_000`/`part_002` reset handler:
`{ resetToken: token, resetExpiry: { $gt: Date.now() } }`. -/
def resetFilter (token : String) (now : Nat) (r : UserRecord) : Bool :=
  r.resetToken == some token && mongoGt r.resetExpiry now

/-- The update document of the `part_000`/`part_002` reset handler:
`$set { password: hash }` together with `$unset { resetToken, resetExpiry }`. -/
def resetUpdate (newPassword : String) (r : UserRecord) : UserRecord :=
  { r with password := Cred.hashed newPassword, resetToken := none, resetExpiry := none }

/-- `POST /api/auth/reset-password` of `src/unnamed/part_000`
(lines 406-430), identical in `part_002` (lines 243-267). -/
def resetPassword_p0 (s : Store) (token newPassword : String) (now : Nat) :
    Resp Unit × Store :=
  match findOne s (resetFilter token now) with
  | none => (.err 400 "Invalid or expired token", s)
  | some user =>
    (.ok 200 (), updateOne s (byEmail user.email) (resetUpdate newPassword))

/-- `POST /api/auth/reset-password` of `src/server.js` (lines 291-339): the
new password is stored exactly as supplied (plaintext), and
`resetToken` / `resetTokenExpiry` are unset in the same update. -/
def resetPassword_sjs (s : Store) (token newPassword : String) (now : Nat) :
    Resp String × Store :=
  match findOne s (fun r => r.resetToken == some token && mongoGt r.resetTokenExpiry now) with
  | none => (.err 400 "Invalid or expired reset token", s)
  | some user =>
    (.ok 200 "Password has been successfully reset",
     updateOne s (byEmail user.email)
       (fun r => { r with password := Cred.plain newPassword, resetToken := none,
                          resetTokenExpiry := none }))

/-! Helper lemmas about the store operations. -/

theorem mem_of_findOne {s : Store} {p : UserRecord → Bool} {u : UserRecord}
    (h : findOne s p = some u) : u ∈ s :=
  List.mem_of_find?_eq_some h

theorem findOne_prop {s : Store} {p : UserRecord → Bool} {u : UserRecord}
    (h : findOne s p = some u) : p u = true :=
  List.find?_some h

theorem findOne_eq_none {s : Store} {p : UserRecord → Bool}
    (h : ∀ r ∈ s, p r = false) : findOne s p = none := by
  unfold findOne
  exact List.find?_eq_none.mpr (fun r hr => by simp [h r hr])

theorem mem_updateOne {s : Store} {p : UserRecord → Bool} {f : UserRecord → UserRecord}
    {r' : UserRecord} (h : r' ∈ updateOne s p f) :
    r' ∈ s ∨ ∃ r, r ∈ s ∧ r' = f r := by
  induction s with
  | nil => simp [updateOne] at h
  | cons a rest ih =>
    rw [updateOne] at h
    by_cases hp : p a
    · rw [if_pos hp] at h
      rcases List.mem_cons.mp h with h | h
      · exact Or.inr ⟨a, List.mem_cons_self a rest, h⟩
      · exact Or.inl (List.mem_cons_of_mem a h)
    · rw [if_neg hp] at h
      rcases List.mem_cons.mp h with h | h
      · exact Or.inl (h ▸ List.mem_cons_self a rest)
      · rcases ih h with h1 | ⟨r, hr, hr'⟩
        · exact Or.inl (List.mem_cons_of_mem a h1)
        · exact Or.inr ⟨r, List.mem_cons_of_mem a hr, hr'⟩

theorem mem_deleteOne {s : Store} {p : UserRecord → Bool} {r' : UserRecord}
    (h : r' ∈ deleteOne s p) : r' ∈ s := by
  induction s with
  | nil => simp [deleteOne] at h
  | cons a rest ih =>
    rw [deleteOne] at h
    by_cases hp : p a
    · rw [if_pos hp] at h
      exact List.mem_cons_of_mem a h
    · rw [if_neg hp] at h
      rcases List.mem_cons.mp h with h | h
      · exact h ▸ List.mem_cons_self a rest
      · exact List.mem_cons_of_mem a (ih h)

/-- No two documents of the collection share an email. -/
def uniqueEmails (s : Store) : Prop :=
  List.Pairwise (fun a b => a.email ≠ b.email) s

/-- At most one document of the collection carries the token `T` in the
field projected by `g`. -/
def atMostOneHolder (g : UserRecord → Option String) (T : String) (s : Store) : Prop :=
  ∀ r₁ ∈ s, ∀ r₂ ∈ s, g r₁ = some T → g r₂ = some T → r₁ = r₂

theorem mem_updateOne_byEmail {s : Store} {u r' : UserRecord} {f : UserRecord → UserRecord}
    (hue : uniqueEmails s) (hu : u ∈ s) (h : r' ∈ updateOne s (byEmail u.email) f) :
    r' = f u ∨ (r' ∈ s ∧ r'.email ≠ u.email) := by
  induction s with
  | nil => cases hu
  | cons a rest ih =>
    rw [uniqueEmails, List.pairwise_cons] at hue
    obtain ⟨ha, hrest⟩ := hue
    rw [updateOne] at h
    by_cases hp : byEmail u.email a
    · have hae : a.email = u.email := by simpa [byEmail] using hp
      have hua : u = a := by
        rcases List.mem_cons.mp hu with h1 | h1
        · exact h1
        · exact absurd hae (ha u h1)
      rw [if_pos hp] at h
      rcases List.mem_cons.mp h with h | h
      · exact Or.inl (by rw [h, hua])
      · refine Or.inr ⟨List.mem_cons_of_mem a h, ?_⟩
        rw [← hua] at ha
        exact fun hr => (ha r' h) (hr ▸ rfl)
    · have hane : a.email ≠ u.email := by simpa [byEmail] using hp
      have hur : u ∈ rest := by
        rcases List.mem_cons.mp hu with h1 | h1
        · exact absurd (h1 ▸ rfl) hane
        · exact h1
      rw [if_neg hp] at h
      rcases List.mem_cons.mp h with h | h
      · exact Or.inr ⟨h ▸ List.mem_cons_self a rest, h ▸ hane⟩
      · rcases ih hrest hur h with h1 | ⟨hm, hne⟩
        · exact Or.inl h1
        · exact Or.inr ⟨List.mem_cons_of_mem a hm, hne⟩

theorem findOne_updateOne_byEmail {s : Store} {u : UserRecord} {f : UserRecord → UserRecord}
    (hue : uniqueEmails s) (hu : u ∈ s) (hf : (f u).email = u.email) :
    findOne (updateOne s (byEmail u.email) f) (byEmail u.email) = some (f u) := by
  induction s with
  | nil => cases hu
  | cons a rest ih =>
    rw [uniqueEmails, List.pairwise_cons] at hue
    obtain ⟨ha, hrest⟩ := hue
    rw [updateOne]
    by_cases hp : byEmail u.email a
    · have hae : a.email = u.email := by simpa [byEmail] using hp
      have hua : u = a := by
        rcases List.mem_cons.mp hu with h1 | h1
        · exact h1
        · exact absurd hae (ha u h1)
      rw [if_pos hp, ← hua]
      unfold findOne
      exact List.find?_cons_of_pos _ (by simp [byEmail, hf])
    · have hane : a.email ≠ u.email := by simpa [byEmail] using hp
      have hur : u ∈ rest := by
        rcases List.mem_cons.mp hu with h1 | h1
        · exact absurd (h1 ▸ rfl) hane
        · exact h1
      rw [if_neg hp]
      unfold findOne
      rw [List.find?_cons_of_neg _ (by simpa [byEmail] using hane)]
      exact ih hrest hur

/-- After the first (and only) holder of token `T` has had the token
cleared by an update keyed on its email, no document holds `T`. -/
theorem cleared_token_not_found {s : Store} {u : UserRecord}
    {g : UserRecord → Option String} {f : UserRecord → UserRecord} {T : String}
    (hue : uniqueEmails s) (hone : atMostOneHolder g T s)
    (hu : u ∈ s) (hcl : g (f u) = none) :
    ∀ r' ∈ updateOne s (byEmail u.email) f, ¬ g r' = some T ∨ ¬ g u = some T := by
  intro r' hr'
  by_cases hgu : g u = some T
  · rcases mem_updateOne_byEmail hue hu hr' with h | ⟨hm, hne⟩
    · exact Or.inl (fun hg => by rw [h, hcl] at hg; cases hg)
    · refine Or.inl (fun hg => ?_)
      exact hne (by rw [hone r' hm u hu hg hgu])
  · exact Or.inr hgu

theorem login_p0_store (s : Store) (email password : String) :
    (login_p0 s email password).2 = s := by
  unfold login_p0
  rcases hf : findOne s (byEmail email) with _ | u
  · rfl
  · by_cases h1 : u.accountActivated <;>
      by_cases h2 : bcryptCompare password u.password <;> simp [h1, h2]

theorem login_p2_store (s : Store) (email password : String) :
    (login_p2 s email password).2 = s := by
  unfold login_p2
  rcases hf : findOne s (byEmail email) with _ | u
  · rfl
  · by_cases h1 : u.accountActivated <;>
      by_cases h2 : bcryptCompare password u.password <;> simp [h1, h2]

theorem login_sjs_store (s : Store) (email password : String) :
    (login_sjs s email password).2 = s := by
  unfold login_sjs
  rcases hf : findOne s (byEmail email) with _ | u
  · rfl
  · by_cases h1 : u.password == Cred.plain password <;> simp [h1]

/-! Claim theorems. -/

/-- C10: every Login call, successful or failed, leaves the credential
store exactly as it was: none of the three login handlers performs any
write. -/
theorem c10_login_no_write (s : Store) (email password : String) :
    (login_p0 s email password).2 = s ∧ (login_p2 s email password).2 = s ∧
      (login_sjs s email password).2 = s :=
  ⟨login_p0_store s email password, login_p2_store s email password,
   login_sjs_store s email password⟩

/-- C9: in both `part_000` and `part_002` login the activation check
precedes the password comparison, so a Login naming an existing
unactivated account answers 403 NotVerified even when the supplied
password is wrong (the password is never consulted). -/
theorem c9_notverified_before_password (s : Store) (email password : String)
    (u : UserRecord) (hfind : findOne s (byEmail email) = some u)
    (hact : u.accountActivated = false) :
    (login_p0 s email password).1 =
        Resp.err 403 "Account not verified. Please check your email for verification link."
      ∧ (login_p2 s email password).1 = Resp.err 403 "Account not verified" := by
  constructor
  · unfold login_p0
    rw [hfind]
    simp [hact]
  · unfold login_p2
    rw [hfind]
    simp [hact]

/-- Concrete unactivated account used by the C9 witness. -/
def c9rec : UserRecord :=
  { id := 0, firstName := "Ada", lastName := "L", email := "a@x",
    password := Cred.hashed "pw", accountType := "savings", accountActivated := false,
    verificationToken := some "T", verificationExpiry := some 100 }

theorem c9_witness :
    findOne [c9rec] (byEmail "a@x") = some c9rec ∧ c9rec.accountActivated = false ∧
      ((login_p0 [c9rec] "a@x" "wrong").1 =
          Resp.err 403 "Account not verified. Please check your email for verification link."
        ∧ (login_p2 [c9rec] "a@x" "wrong").1 = Resp.err 403 "Account not verified") :=
  ⟨by decide, by decide,
   c9_notverified_before_password [c9rec] "a@x" "wrong" c9rec (by decide) (by decide)⟩

/-- C7: a login failure for an unknown email and a login failure for a
known, activated account with a wrong password carry the same status code
and the same error body, in each of the three revisions. -/
theorem c7_login_indistinguishable (s : Store) (e1 e2 p1 p2 : String) (u : UserRecord)
    (h1 : findOne s (byEmail e1) = none)
    (h2 : findOne s (byEmail e2) = some u)
    (hact : u.accountActivated = true)
    (hbc : bcryptCompare p2 u.password = false)
    (hpl : (u.password == Cred.plain p2) = false) :
    ((login_p0 s e1 p1).1 = Resp.err 401 "Invalid email or password"
      ∧ (login_p0 s e2 p2).1 = Resp.err 401 "Invalid email or password")
    ∧ ((login_p2 s e1 p1).1 = Resp.err 401 "Invalid credentials"
      ∧ (login_p2 s e2 p2).1 = Resp.err 401 "Invalid credentials")
    ∧ ((login_sjs s e1 p1).1 = Resp.err 401 "Invalid email or password"
      ∧ (login_sjs s e2 p2).1 = Resp.err 401 "Invalid email or password") := by
  refine ⟨⟨?_, ?_⟩, ⟨?_, ?_⟩, ⟨?_, ?_⟩⟩ <;>
    simp [login_p0, login_p2, login_sjs, h1, h2, hact, hbc, hpl]

/-- Concrete activated account used by the C7 witness; its password is the
hash of a different string than the supplied one. -/
def c7rec : UserRecord :=
  { id := 0, firstName := "Bo", lastName := "K", email := "b@x",
    password := Cred.hashed "right", accountType := "savings", accountActivated := true }

theorem c7_witness :
    findOne [c7rec] (byEmail "a@x") = none ∧ findOne [c7rec] (byEmail "b@x") = some c7rec ∧
      c7rec.accountActivated = true ∧ bcryptCompare "wrong" c7rec.password = false ∧
      (((login_p0 [c7rec] "a@x" "wrong").1 = Resp.err 401 "Invalid email or password"
          ∧ (login_p0 [c7rec] "b@x" "wrong").1 = Resp.err 401 "Invalid email or password")
        ∧ ((login_p2 [c7rec] "a@x" "wrong").1 = Resp.err 401 "Invalid credentials"
          ∧ (login_p2 [c7rec] "b@x" "wrong").1 = Resp.err 401 "Invalid credentials")
        ∧ ((login_sjs [c7rec] "a@x" "wrong").1 = Resp.err 401 "Invalid email or password"
          ∧ (login_sjs [c7rec] "b@x" "wrong").1 = Resp.err 401 "Invalid email or password")) :=
  ⟨by decide, by decide, by decide, by decide,
   c7_login_indistinguishable [c7rec] "a@x" "b@x" "wrong" "wrong" c7rec
     (by decide) (by decide) (by decide) (by decide) (by decide)⟩

/-- Concrete account used in the C5 theorem to exhibit the `part_000`
forgot-password behaviour under dispatch failure. -/
def c5rec : UserRecord :=
  { id := 0, firstName := "Cy", lastName := "D", email := "a@x",
    password := Cred.hashed "pw", accountType := "savings", accountActivated := true }

/-- C5: the `server.js` forgot-password handler answers the identical 200
success body whether or not the email matches an account and whatever the
dispatch outcome; but in `part_000` a dispatch failure on a matching email
escapes the handler (no response is sent), unlike the success answered for
a non-matching email — the failure is surfaced, not swallowed. -/
theorem c5_forgot_enumeration (s : Store) (email tok : String) (now : Nat) (sendOk : Bool) :
    (forgotPassword_sjs s email tok now sendOk).1 =
        Resp.ok 200
          "If an account exists with this email, password reset instructions have been sent."
      ∧ (forgotPassword_p0 [c5rec] "a@x" "t" 0 false).1 = Resp.raised
      ∧ (forgotPassword_p0 [c5rec] "nobody@x" "t" 0 false).1 = Resp.ok 200 () := by
  refine ⟨?_, by decide, by decide⟩
  unfold forgotPassword_sjs
  rcases hf : findOne s (byEmail email) with _ | u <;> simp

theorem findOne_append_none {s : Store} {p : UserRecord → Bool}
    (h : ∀ r ∈ s, p r = false) (u : UserRecord) :
    findOne (s ++ [u]) p = if p u then some u else none := by
  induction s with
  | nil => cases hpu : p u <;> simp [findOne, List.find?, hpu]
  | cons a rest ih =>
    have ha : p a = false := h a (List.mem_cons_self a rest)
    rw [List.cons_append]
    unfold findOne
    rw [List.find?_cons_of_neg _ (by simp [ha])]
    exact ih (fun r hr => h r (List.mem_cons_of_mem a hr))

theorem deleteOne_append {s : Store} {p : UserRecord → Bool}
    (h : ∀ r ∈ s, p r = false) {u : UserRecord} (hu : p u = true) :
    deleteOne (s ++ [u]) p = s := by
  induction s with
  | nil => simp [deleteOne, hu]
  | cons a rest ih =>
    have ha : p a = false := h a (List.mem_cons_self a rest)
    rw [List.cons_append, deleteOne, if_neg (by simp [ha])]
    rw [ih (fun r hr => h r (List.mem_cons_of_mem a hr))]

theorem findOne_none_all {s : Store} {p : UserRecord → Bool}
    (h : findOne s p = none) : ∀ r ∈ s, p r = false := by
  intro r hr
  have := List.find?_eq_none.mp h r hr
  simpa using this

/-- C1: in `part_000`, a register whose email dispatch fails reports a 500
error and deletes the inserted record, so a subsequent `findOne` by that
email yields null; but in `part_002` the same failing call rejects with no
response and the freshly inserted, unverifiable record stays behind. -/
theorem c1_register_rollback (s : Store) (fn ln email pw acct tok : String) (now : Nat)
    (he : ¬ email = "") (hp : ¬ pw = "")
    (hnew : findOne s (byEmail email) = none) :
    (register_p0 s fn ln email pw acct tok now false).1 =
        Resp.err 500 "Failed to send verification email. Please try again."
    ∧ findOne (register_p0 s fn ln email pw acct tok now false).2 (byEmail email) = none
    ∧ (register_p2 s fn ln email pw acct tok now false).1 = Resp.raised
    ∧ (∃ r, findOne (register_p2 s fn ln email pw acct tok now false).2 (byEmail email) = some r
        ∧ r.email = email ∧ r.accountActivated = false ∧ r.verificationToken = some tok) := by
  have hall : ∀ r ∈ s, byEmail email r = false := findOne_none_all hnew
  have hnu : byEmail email (freshUser s fn ln email pw acct tok now) = true := by
    simp [byEmail, freshUser]
  refine ⟨?_, ?_, ?_, ?_⟩
  · unfold register_p0
    rw [if_neg (by simp [he, hp]), hnew]
    rfl
  · unfold register_p0
    rw [if_neg (by simp [he, hp]), hnew]
    show findOne (deleteOne (insertOne s (freshUser s fn ln email pw acct tok now))
        (byEmail email)) (byEmail email) = none
    rw [insertOne, deleteOne_append hall hnu]
    exact hnew
  · unfold register_p2
    rw [if_neg (by simp [he, hp]), hnew]
    rfl
  · unfold register_p2
    rw [if_neg (by simp [he, hp]), hnew]
    show ∃ r, findOne (insertOne s (freshUser s fn ln email pw acct tok now))
          (byEmail email) = some r
        ∧ r.email = email ∧ r.accountActivated = false ∧ r.verificationToken = some tok
    rw [insertOne, findOne_append_none hall, if_pos hnu]
    exact ⟨_, rfl, rfl, rfl, rfl⟩

theorem c1_witness :
    ¬ "a@x" = "" ∧ ¬ "pw" = "" ∧ findOne ([] : Store) (byEmail "a@x") = none ∧
      ((register_p0 [] "A" "B" "a@x" "pw" "savings" "T" 0 false).1 =
          Resp.err 500 "Failed to send verification email. Please try again."
        ∧ findOne (register_p0 [] "A" "B" "a@x" "pw" "savings" "T" 0 false).2
            (byEmail "a@x") = none
        ∧ (register_p2 [] "A" "B" "a@x" "pw" "savings" "T" 0 false).1 = Resp.raised
        ∧ (∃ r, findOne (register_p2 [] "A" "B" "a@x" "pw" "savings" "T" 0 false).2
              (byEmail "a@x") = some r
            ∧ r.email = "a@x" ∧ r.accountActivated = false
            ∧ r.verificationToken = some "T")) :=
  ⟨by decide, by decide, by decide,
   c1_register_rollback [] "A" "B" "a@x" "pw" "savings" "T" 0
     (by decide) (by decide) (by decide)⟩

/-- Two interleaved `part_002` verify requests for the same token, in the
schedule where both perform their `findOne` against the initial store
before either performs its `updateOne`.  Each request consists of exactly
the two store operations of `verify_p2`, and responds from its own find
result. -/
def interleavedVerify_p2 (s : Store) (token : String) (now : Nat) :
    (Resp Unit × Resp Unit) × Store :=
  let fA := findOne s (verifyFilter_p2 token now)
  let fB := findOne s (verifyFilter_p2 token now)
  let a : Resp Unit × Store :=
    match fA with
    | none => (.err 400 "Invalid or expired token", s)
    | some user => (.ok 200 (), updateOne s (byEmail user.email) activateUpdate)
  let b : Resp Unit × Store :=
    match fB with
    | none => (.err 400 "Invalid or expired token", a.2)
    | some user => (.ok 200 (), updateOne a.2 (byEmail user.email) activateUpdate)
  ((a.1, b.1), b.2)

/-- Concrete pending-verification account used for C2. -/
def c2rec : UserRecord :=
  { id := 0, firstName := "A", lastName := "B", email := "a@x",
    password := Cred.hashed "pw", accountType := "savings", accountActivated := false,
    verificationToken := some "T", verificationExpiry := some 1000 }

/-- C2: the verify store update is a blind set keyed only on the email, not
a compare-and-clear conditioned on the token: under the interleaving in
which both finds precede both updates, two verifications with the same
token both succeed, and the update filter still matches the record after
its verification token has been cleared. -/
theorem c2_verify_blind_update :
    (interleavedVerify_p2 [c2rec] "T" 500).1 = (Resp.ok 200 (), Resp.ok 200 ())
    ∧ byEmail "a@x" (activateUpdate c2rec) = true
    ∧ (activateUpdate c2rec).verificationToken = none := by
  decide

/-- Concrete account whose verification expiry equals the current instant,
used for C4. -/
def c4rec : UserRecord :=
  { id := 0, firstName := "A", lastName := "B", email := "a@x",
    password := Cred.hashed "pw", accountType := "savings", accountActivated := false,
    verificationToken := some "T", verificationExpiry := some 1000 }

/-- C4 counterexample: in `part_000` the verify expiry test is the strict
`verificationExpiry < now`, so a token whose stored expiry equals the
current time is accepted and the account is activated, where the claim
requires rejection. -/
theorem c4_expiry_boundary_cex :
    c4rec.verificationExpiry = some 1000
    ∧ (verify_p0 [c4rec] "T" 1000).1 = Resp.ok 200 "Account verified successfully" := by
  decide

theorem mongoGt_eq_false_of_atMost {o : Option Nat} {n : Nat}
    (h : expiryAtMost o n = true) : mongoGt o n = false := by
  cases o with
  | none => rfl
  | some e =>
    simp [expiryAtMost] at h
    simp [mongoGt]
    omega

/-- C4 amended: every handler whose find filter uses Mongo `$gt` — the
`part_002` verify and both reset handlers — rejects a token none of whose
holders has a stored expiry in the future (in particular one whose expiry
equals the current time); the `part_000` verify rejects a token whose
holders' stored expiry is strictly below the current time, but not one
whose expiry equals it. -/
theorem c4_expiry_amended (s : Store) (T npw : String) (now : Nat) :
    ((∀ r ∈ s, r.verificationToken = some T → jsLtNow r.verificationExpiry now = true) →
        isErr (verify_p0 s T now).1 = true)
    ∧ ((∀ r ∈ s, r.verificationToken = some T → expiryAtMost r.verificationExpiry now = true) →
        (verify_p2 s T now).1 = Resp.err 400 "Invalid or expired token")
    ∧ ((∀ r ∈ s, r.resetToken = some T → expiryAtMost r.resetExpiry now = true) →
        (resetPassword_p0 s T npw now).1 = Resp.err 400 "Invalid or expired token")
    ∧ ((∀ r ∈ s, r.resetToken = some T → expiryAtMost r.resetTokenExpiry now = true) →
        (resetPassword_sjs s T npw now).1 = Resp.err 400 "Invalid or expired reset token") := by
  refine ⟨?_, ?_, ?_, ?_⟩
  · intro h
    by_cases hT : T = ""
    · simp [verify_p0, hT, isErr]
    · rcases hfind : findOne s (fun r => r.verificationToken == some T) with _ | u
      · simp [verify_p0, hT, hfind, isErr]
      · have hu : u ∈ s := mem_of_findOne hfind
        have htok : u.verificationToken = some T := by
          have := findOne_prop hfind
          simpa using this
        have hlt := h u hu htok
        simp [verify_p0, hT, hfind, hlt, isErr]
  · intro h
    have hnone : findOne s (verifyFilter_p2 T now) = none := by
      apply findOne_eq_none
      intro r hr
      by_cases ht : r.verificationToken = some T
      · simp [verifyFilter_p2, mongoGt_eq_false_of_atMost (h r hr ht)]
      · simp [verifyFilter_p2, ht]
    simp [verify_p2, hnone]
  · intro h
    have hnone : findOne s (resetFilter T now) = none := by
      apply findOne_eq_none
      intro r hr
      by_cases ht : r.resetToken = some T
      · simp [resetFilter, mongoGt_eq_false_of_atMost (h r hr ht)]
      · simp [resetFilter, ht]
    simp [resetPassword_p0, hnone]
  · intro h
    have hnone : findOne s
        (fun r => r.resetToken == some T && mongoGt r.resetTokenExpiry now) = none := by
      apply findOne_eq_none
      intro r hr
      by_cases ht : r.resetToken = some T
      · simp [mongoGt_eq_false_of_atMost (h r hr ht)]
      · simp [ht]
    simp [resetPassword_sjs, hnone]

/-- Concrete fully-expired account used by the C4 witness. -/
def c4wrec : UserRecord :=
  { id := 0, firstName := "A", lastName := "B", email := "a@x",
    password := Cred.hashed "pw", accountType := "savings", accountActivated := false,
    verificationToken := some "T", verificationExpiry := some 10,
    resetToken := some "T", resetExpiry := some 10, resetTokenExpiry := some 10 }

theorem c4_expiry_amended_witness :
    (∀ r ∈ [c4wrec], r.verificationToken = some "T" → jsLtNow r.verificationExpiry 20 = true)
    ∧ (∀ r ∈ [c4wrec], r.verificationToken = some "T" →
        expiryAtMost r.verificationExpiry 20 = true)
    ∧ (∀ r ∈ [c4wrec], r.resetToken = some "T" → expiryAtMost r.resetExpiry 20 = true)
    ∧ (∀ r ∈ [c4wrec], r.resetToken = some "T" → expiryAtMost r.resetTokenExpiry 20 = true)
    ∧ isErr (verify_p0 [c4wrec] "T" 20).1 = true
    ∧ (verify_p2 [c4wrec] "T" 20).1 = Resp.err 400 "Invalid or expired token"
    ∧ (resetPassword_p0 [c4wrec] "T" "n" 20).1 = Resp.err 400 "Invalid or expired token"
    ∧ (resetPassword_sjs [c4wrec] "T" "n" 20).1 =
        Resp.err 400 "Invalid or expired reset token" :=
  ⟨by decide, by decide, by decide, by decide,
   (c4_expiry_amended [c4wrec] "T" "n" 20).1 (by decide),
   (c4_expiry_amended [c4wrec] "T" "n" 20).2.1 (by decide),
   (c4_expiry_amended [c4wrec] "T" "n" 20).2.2.1 (by decide),
   (c4_expiry_amended [c4wrec] "T" "n" 20).2.2.2 (by decide)⟩

/-- C3: with unique emails and a unique holder of token `T`, a verify that
succeeded has cleared the token, so a second sequential verify with the
same token answers the NotFound error, in both revisions. -/
theorem c3_verify_single_use (s : Store) (T : String) (now now2 : Nat)
    (hue : uniqueEmails s)
    (hone : atMostOneHolder (fun r => r.verificationToken) T s) :
    ((verify_p0 s T now).1 = Resp.ok 200 "Account verified successfully" →
        (verify_p0 (verify_p0 s T now).2 T now2).1 =
          Resp.err 400 "Invalid verification link")
    ∧ ((verify_p2 s T now).1 = Resp.ok 200 () →
        (verify_p2 (verify_p2 s T now).2 T now2).1 =
          Resp.err 400 "Invalid or expired token") := by
  constructor
  · intro hok
    by_cases hT : T = ""
    · exact absurd hok (by simp [verify_p0, hT])
    · rcases hfind : findOne s (fun r => r.verificationToken == some T) with _ | u
      · exact absurd hok (by simp [verify_p0, hT, hfind])
      · by_cases hexp : jsLtNow u.verificationExpiry now = true
        · exact absurd hok (by simp [verify_p0, hT, hfind, hexp])
        · by_cases hact : u.accountActivated = true
          · exact absurd hok (by simp [verify_p0, hT, hfind, hexp, hact])
          · have hu : u ∈ s := mem_of_findOne hfind
            have htok : u.verificationToken = some T := by
              have := findOne_prop hfind
              simpa using this
            have hs' : (verify_p0 s T now).2 =
                updateOne s (byEmail u.email) activateUpdate := by
              simp [verify_p0, hT, hfind, hexp, hact]
            have hnone : findOne (updateOne s (byEmail u.email) activateUpdate)
                (fun r => r.verificationToken == some T) = none := by
              apply findOne_eq_none
              intro r' hr'
              rcases cleared_token_not_found hue hone hu
                  (by simp [activateUpdate]) r' hr' with h | h
              · simpa using h
              · exact absurd htok h
            rw [hs']
            simp [verify_p0, hT, hnone]
  · intro hok
    rcases hfind : findOne s (verifyFilter_p2 T now) with _ | u
    · exact absurd hok (by simp [verify_p2, hfind])
    · have hu : u ∈ s := mem_of_findOne hfind
      have htok : u.verificationToken = some T := by
        have := findOne_prop hfind
        simp [verifyFilter_p2] at this
        exact this.1
      have hs' : (verify_p2 s T now).2 =
          updateOne s (byEmail u.email) activateUpdate := by
        simp [verify_p2, hfind]
      have hnone : findOne (updateOne s (byEmail u.email) activateUpdate)
          (verifyFilter_p2 T now2) = none := by
        apply findOne_eq_none
        intro r' hr'
        rcases cleared_token_not_found hue hone hu
            (by simp [activateUpdate]) r' hr' with h | h
        · simp [verifyFilter_p2, h]
        · exact absurd htok h
      rw [hs']
      simp [verify_p2, hnone]

/-- Concrete pending-verification account used by the C3 witness. -/
def c3rec : UserRecord :=
  { id := 0, firstName := "A", lastName := "B", email := "a@x",
    password := Cred.hashed "pw", accountType := "savings", accountActivated := false,
    verificationToken := some "T", verificationExpiry := some 100 }

theorem c3_witness :
    uniqueEmails [c3rec]
    ∧ atMostOneHolder (fun r => r.verificationToken) "T" [c3rec]
    ∧ (verify_p0 [c3rec] "T" 50).1 = Resp.ok 200 "Account verified successfully"
    ∧ (verify_p0 (verify_p0 [c3rec] "T" 50).2 "T" 60).1 =
        Resp.err 400 "Invalid verification link"
    ∧ (verify_p2 [c3rec] "T" 50).1 = Resp.ok 200 ()
    ∧ (verify_p2 (verify_p2 [c3rec] "T" 50).2 "T" 60).1 =
        Resp.err 400 "Invalid or expired token" := by
  have hue : uniqueEmails [c3rec] := by simp [uniqueEmails]
  have hone : atMostOneHolder (fun r => r.verificationToken) "T" [c3rec] := by
    intro r₁ h₁ r₂ h₂ _ _
    rw [List.mem_singleton] at h₁ h₂
    rw [h₁, h₂]
  exact ⟨hue, hone, by decide,
    (c3_verify_single_use [c3rec] "T" 50 60 hue hone).1 (by decide),
    by decide,
    (c3_verify_single_use [c3rec] "T" 50 60 hue hone).2 (by decide)⟩

/-- Concrete pending-reset account used in C6 to exhibit the `server.js`
plaintext storage. -/
def c6rec : UserRecord :=
  { id := 0, firstName := "A", lastName := "B", email := "a@x",
    password := Cred.hashed "old", accountType := "savings", accountActivated := true,
    resetToken := some "T", resetTokenExpiry := some 100 }

/-- C6: with unique emails and a unique holder of reset token `T`, a
successful `part_000`/`part_002` reset stores the bcrypt hash of the new
password (never the plaintext) and removes both reset fields in the same
update, so the consumed token fails on a second attempt; `server.js`
instead stores the new password in plaintext. -/
theorem c6_reset_hash_and_clear (s : Store) (T npw npw2 : String) (now now2 : Nat)
    (u : UserRecord)
    (hue : uniqueEmails s)
    (hone : atMostOneHolder (fun r => r.resetToken) T s)
    (hfind : findOne s (resetFilter T now) = some u) :
    (resetPassword_p0 s T npw now).1 = Resp.ok 200 ()
    ∧ findOne (resetPassword_p0 s T npw now).2 (byEmail u.email) =
        some (resetUpdate npw u)
    ∧ (resetUpdate npw u).password = Cred.hashed npw
    ∧ (resetUpdate npw u).resetToken = none
    ∧ (resetUpdate npw u).resetExpiry = none
    ∧ (resetPassword_p0 (resetPassword_p0 s T npw now).2 T npw2 now2).1 =
        Resp.err 400 "Invalid or expired token"
    ∧ ((resetPassword_sjs [c6rec] "T" "npw" 50).2.head?.map
        (fun r => r.password)) = some (Cred.plain "npw") := by
  have hu : u ∈ s := mem_of_findOne hfind
  have htok : u.resetToken = some T := by
    have := findOne_prop hfind
    simp [resetFilter] at this
    exact this.1
  have hs' : (resetPassword_p0 s T npw now).2 =
      updateOne s (byEmail u.email) (resetUpdate npw) := by
    simp [resetPassword_p0, hfind]
  have hnone : findOne (updateOne s (byEmail u.email) (resetUpdate npw))
      (resetFilter T now2) = none := by
    apply findOne_eq_none
    intro r' hr'
    rcases cleared_token_not_found hue hone hu
        (by simp [resetUpdate]) r' hr' with h | h
    · simp [resetFilter, h]
    · exact absurd htok h
  refine ⟨by simp [resetPassword_p0, hfind], ?_, rfl, rfl, rfl, ?_, by decide⟩
  · rw [hs']
    exact findOne_updateOne_byEmail hue hu rfl
  · rw [hs']
    simp [resetPassword_p0, hnone]

/-- Concrete pending-reset account (field names of `part_000`) used by the
C6 witness. -/
def c6wrec : UserRecord :=
  { id := 0, firstName := "A", lastName := "B", email := "a@x",
    password := Cred.hashed "old", accountType := "savings", accountActivated := true,
    resetToken := some "T", resetExpiry := some 100 }

theorem c6_witness :
    uniqueEmails [c6wrec]
    ∧ atMostOneHolder (fun r => r.resetToken) "T" [c6wrec]
    ∧ findOne [c6wrec] (resetFilter "T" 50) = some c6wrec
    ∧ ((resetPassword_p0 [c6wrec] "T" "new" 50).1 = Resp.ok 200 ()
      ∧ findOne (resetPassword_p0 [c6wrec] "T" "new" 50).2 (byEmail c6wrec.email) =
          some (resetUpdate "new" c6wrec)
      ∧ (resetUpdate "new" c6wrec).password = Cred.hashed "new"
      ∧ (resetUpdate "new" c6wrec).resetToken = none
      ∧ (resetUpdate "new" c6wrec).resetExpiry = none
      ∧ (resetPassword_p0 (resetPassword_p0 [c6wrec] "T" "new" 50).2 "T" "new2" 60).1 =
          Resp.err 400 "Invalid or expired token"
      ∧ ((resetPassword_sjs [c6rec] "T" "npw" 50).2.head?.map
          (fun r => r.password)) = some (Cred.plain "npw")) := by
  have hue : uniqueEmails [c6wrec] := by simp [uniqueEmails]
  have hone : atMostOneHolder (fun r => r.resetToken) "T" [c6wrec] := by
    intro r₁ h₁ r₂ h₂ _ _
    rw [List.mem_singleton] at h₁ h₂
    rw [h₁, h₂]
  exact ⟨hue, hone, by decide,
    c6_reset_hash_and_clear [c6wrec] "T" "new" "new2" 50 60 c6wrec hue hone (by decide)⟩

/-- One client request against the `part_000` service, with its
nondeterministic inputs (generated token, current time, dispatch outcome)
recorded as data. -/
inductive Op where
  | register (firstName lastName email password accountType tok : String)
      (now : Nat) (sendOk : Bool)
  | verify (token : String) (now : Nat)
  | login (email password : String)
  | forgot (email tok : String) (now : Nat) (sendOk : Bool)
  | reset (token newPassword : String) (now : Nat)

/-- The store after the `part_000` service has served one request. -/
def applyOp (s : Store) : Op → Store
  | .register fn ln e p a t now so => (register_p0 s fn ln e p a t now so).2
  | .verify t now => (verify_p0 s t now).2
  | .login e p => (login_p0 s e p).2
  | .forgot e t now so => (forgotPassword_p0 s e t now so).2
  | .reset t p now => (resetPassword_p0 s t p now).2

/-- Store states reachable from the empty collection by serving requests. -/
inductive Reachable : Store → Prop
  | init : Reachable []
  | step {s : Store} (op : Op) : Reachable s → Reachable (applyOp s op)

/-- The C8 invariant: an activated record carries neither a verification
token nor a verification expiry. -/
def invAct (s : Store) : Prop :=
  ∀ r ∈ s, r.accountActivated = true →
    r.verificationToken = none ∧ r.verificationExpiry = none

theorem invAct_insert_fresh {s : Store} (h : invAct s)
    (fn ln e p a t : String) (now : Nat) :
    invAct (insertOne s (freshUser s fn ln e p a t now)) := by
  intro r hr hact
  rcases List.mem_append.mp hr with h1 | h1
  · exact h r h1 hact
  · rw [List.mem_singleton] at h1
    subst h1
    simp [freshUser] at hact

theorem invAct_applyOp {s : Store} (h : invAct s) (op : Op) : invAct (applyOp s op) := by
  cases op with
  | register fn ln e p a t now so =>
    show invAct (register_p0 s fn ln e p a t now so).2
    by_cases hg : e = "" ∨ p = ""
    · have hs : (register_p0 s fn ln e p a t now so).2 = s := by
        simp [register_p0, hg]
      rw [hs]; exact h
    · rcases hfind : findOne s (byEmail e) with _ | u
      · cases so with
        | true =>
          have hs : (register_p0 s fn ln e p a t now true).2 =
              insertOne s (freshUser s fn ln e p a t now) := by
            simp [register_p0, hg, hfind]
          rw [hs]
          exact invAct_insert_fresh h fn ln e p a t now
        | false =>
          have hs : (register_p0 s fn ln e p a t now false).2 =
              deleteOne (insertOne s (freshUser s fn ln e p a t now)) (byEmail e) := by
            simp [register_p0, hg, hfind]
          rw [hs]
          intro r hr hact
          exact invAct_insert_fresh h fn ln e p a t now r (mem_deleteOne hr) hact
      · have hs : (register_p0 s fn ln e p a t now so).2 = s := by
          simp [register_p0, hg, hfind]
        rw [hs]; exact h
  | verify t now =>
    show invAct (verify_p0 s t now).2
    by_cases hT : t = ""
    · have hs : (verify_p0 s t now).2 = s := by simp [verify_p0, hT]
      rw [hs]; exact h
    · rcases hfind : findOne s (fun r => r.verificationToken == some t) with _ | u
      · have hs : (verify_p0 s t now).2 = s := by simp [verify_p0, hT, hfind]
        rw [hs]; exact h
      · by_cases hexp : jsLtNow u.verificationExpiry now = true
        · have hs : (verify_p0 s t now).2 = s := by simp [verify_p0, hT, hfind, hexp]
          rw [hs]; exact h
        · by_cases hact : u.accountActivated = true
          · have hs : (verify_p0 s t now).2 = s := by
              simp [verify_p0, hT, hfind, hexp, hact]
            rw [hs]; exact h
          · have hs : (verify_p0 s t now).2 =
                updateOne s (byEmail u.email) activateUpdate := by
              simp [verify_p0, hT, hfind, hexp, hact]
            rw [hs]
            intro r hr hract
            rcases mem_updateOne hr with h1 | ⟨r0, _, rfl⟩
            · exact h r h1 hract
            · simp [activateUpdate]
  | login e p =>
    show invAct (login_p0 s e p).2
    rw [login_p0_store]; exact h
  | forgot e t now so =>
    show invAct (forgotPassword_p0 s e t now so).2
    rcases hfind : findOne s (byEmail e) with _ | u
    · have hs : (forgotPassword_p0 s e t now so).2 = s := by
        simp [forgotPassword_p0, hfind]
      rw [hs]; exact h
    · have hs : (forgotPassword_p0 s e t now so).2 =
          updateOne s (byEmail e) (setReset t now) := by
        cases so <;> simp [forgotPassword_p0, hfind]
      rw [hs]
      intro r hr hract
      rcases mem_updateOne hr with h1 | ⟨r0, hr0, rfl⟩
      · exact h r h1 hract
      · have hr0act : r0.accountActivated = true := by simpa [setReset] using hract
        have := h r0 hr0 hr0act
        simpa [setReset] using this
  | reset t p now =>
    show invAct (resetPassword_p0 s t p now).2
    rcases hfind : findOne s (resetFilter t now) with _ | u
    · have hs : (resetPassword_p0 s t p now).2 = s := by
        simp [resetPassword_p0, hfind]
      rw [hs]; exact h
    · have hs : (resetPassword_p0 s t p now).2 =
          updateOne s (byEmail u.email) (resetUpdate p) := by
        simp [resetPassword_p0, hfind]
      rw [hs]
      intro r hr hract
      rcases mem_updateOne hr with h1 | ⟨r0, hr0, rfl⟩
      · exact h r h1 hract
      · have hr0act : r0.accountActivated = true := by simpa [resetUpdate] using hract
        have := h r0 hr0 hr0act
        simpa [resetUpdate] using this

theorem invAct_of_reachable {s : Store} (h : Reachable s) : invAct s := by
  induction h with
  | init => intro r hr; cases hr
  | step op _ ih => exact invAct_applyOp ih op

theorem verify_p0_no_already_verified {s : Store} (h : invAct s) (t : String) (now : Nat) :
    (verify_p0 s t now).1 ≠ Resp.err 400 "Account already verified" := by
  by_cases hT : t = ""
  · have e1 : (verify_p0 s t now).1 = Resp.err 400 "No token provided" := by
      simp [verify_p0, hT]
    rw [e1]; decide
  · rcases hfind : findOne s (fun r => r.verificationToken == some t) with _ | u
    · have e1 : (verify_p0 s t now).1 = Resp.err 400 "Invalid verification link" := by
        simp [verify_p0, hT, hfind]
      rw [e1]; decide
    · have hu : u ∈ s := mem_of_findOne hfind
      have htok : u.verificationToken = some t := by
        simpa using findOne_prop hfind
      by_cases hexp : jsLtNow u.verificationExpiry now = true
      · have e1 : (verify_p0 s t now).1 =
            Resp.err 400 "Verification link has expired" := by
          simp [verify_p0, hT, hfind, hexp]
        rw [e1]; decide
      · cases hAA : u.accountActivated with
        | true =>
          have hnone := (h u hu hAA).1
          rw [htok] at hnone
          exact Option.noConfusion hnone
        | false =>
          have e1 : (verify_p0 s t now).1 =
              Resp.ok 200 "Account verified successfully" := by
            simp [verify_p0, hT, hfind, hexp, hAA]
          rw [e1]; decide

/-- C8: on every store reachable by serving requests, activated records
carry no verification token or expiry, the property is preserved by
serving any further request, and consequently the verify handler can never
answer its defensive already-verified error. -/
theorem c8_activated_no_token (s : Store) (op : Op) (t : String) (now : Nat)
    (hs : Reachable s) :
    invAct s ∧ invAct (applyOp s op)
      ∧ (verify_p0 s t now).1 ≠ Resp.err 400 "Account already verified" := by
  have h := invAct_of_reachable hs
  exact ⟨h, invAct_applyOp h op, verify_p0_no_already_verified h t now⟩

theorem c8_witness :
    Reachable ([] : Store)
    ∧ (invAct []
      ∧ invAct (applyOp [] (Op.register "A" "B" "a@x" "pw" "savings" "T" 0 true))
      ∧ (verify_p0 [] "x" 0).1 ≠ Resp.err 400 "Account already verified") :=
  ⟨Reachable.init,
   c8_activated_no_token [] (Op.register "A" "B" "a@x" "pw" "savings" "T" 0 true) "x" 0
     Reachable.init⟩

end BankAtlantic
